import Mathlib

/-!
Verification of the personal-finance application: a shallow embedding of the
auth context (sign-up, sign-in with legacy-hash fallback), the welcome
screen's balance fold, transaction creation/deletion, and the income
screen's amount validation and month-scoped category aggregation.
Amounts are modelled as rationals, remote tables as lists, and the remote
calls' success or failure as explicit boolean parameters.
-/

/-! ## JavaScript numeric and string primitives -/

/-- Reduction of an integer to the 32-bit signed range, modelling the result
of JavaScript bitwise operators (`<<`, `&`). -/
def toInt32 (n : Int) : Int :=
  let m := n % 4294967296
  let m := if m < 0 then m + 4294967296 else m
  if m < 2147483648 then m else m - 4294967296

/-- One iteration of the fallback string hash in `hashPassword`:
`hash = ((hash << 5) - hash) + char; hash = hash & hash`. -/
def simpleHashStep (h : Int) (c : Nat) : Int :=
  toInt32 (toInt32 (32 * h) - h + c)

/-- Left-pad a string with `'0'` to at least 8 characters, modelling
`padStart(8, '0')`. -/
def padHex8 (s : String) : String :=
  if s.length ≥ 8 then s else String.mk (List.replicate (8 - s.length) '0') ++ s

/-- The fallback password hash used by `hashPassword` when the subtle-crypto
API is unavailable: the classic 32-bit rolling string hash, then
`Math.abs(hash).toString(16).padStart(8, '0')`. -/
def simpleHash (s : String) : String :=
  let h := s.data.foldl (fun h c => simpleHashStep h c.toNat) 0
  padHex8 (String.mk (Nat.toDigits 16 h.natAbs))

/-- Numeric value of a list of decimal digit characters. -/
def digitsToNat (cs : List Char) : Nat :=
  cs.foldl (fun n c => 10 * n + (c.toNat - 48)) 0

/-- Value of an integer part and a fractional part given as digit lists. -/
def decValue (intPart fracPart : List Char) : Rat :=
  (digitsToNat intPart : Rat) + (digitsToNat fracPart : Rat) / (10 : Rat) ^ fracPart.length

/-- Model of JavaScript `parseFloat` restricted to its use in the income
screen, where the argument is a string of digits and dots (the output of the
`[^0-9.]` strip): parse the longest prefix of the form `digits [. digits]`;
`none` models `NaN` (no leading digits and no fractional digits). -/
def parseFloatJS (s : String) : Option Rat :=
  let cs := s.data
  let intPart := cs.takeWhile Char.isDigit
  let rest := cs.drop intPart.length
  match rest with
  | '.' :: rest2 =>
    let fracPart := rest2.takeWhile Char.isDigit
    if intPart.isEmpty && fracPart.isEmpty then none
    else some (decValue intPart fracPart)
  | _ => if intPart.isEmpty then none else some (digitsToNat intPart)

/-- Helper for `jsNumber`: parse an unsigned decimal string entirely
(`digits`, `digits.digits`, `.digits` or `digits.`); any other character
makes the conversion `NaN` (`none`). -/
def jsNumberCore (cs : List Char) : Option Rat :=
  let intPart := cs.takeWhile Char.isDigit
  let rest := cs.drop intPart.length
  match rest with
  | [] => if intPart.isEmpty then none else some (digitsToNat intPart)
  | '.' :: rest2 =>
    let fracPart := rest2.takeWhile Char.isDigit
    if ¬ (rest2.drop fracPart.length).isEmpty then none
    else if intPart.isEmpty && fracPart.isEmpty then none
    else some (decValue intPart fracPart)
  | _ => none

/-- Model of JavaScript `String.prototype.trim`: drop leading and trailing
whitespace. -/
def jsTrim (s : String) : String :=
  String.mk (((s.data.dropWhile Char.isWhitespace).reverse.dropWhile Char.isWhitespace).reverse)

/-- Model of JavaScript `Number(string)` on the plain decimal forms the
welcome screen feeds it (no exponent, hexadecimal or `Infinity` forms occur
in its inputs): trimmed empty string is `0`, an optional sign followed by a
decimal numeral is its value, anything else is `NaN` (`none`). -/
def jsNumber (s : String) : Option Rat :=
  let t := jsTrim s
  if t = "" then some 0
  else
    match t.data with
    | '-' :: cs => (jsNumberCore cs).map (fun v => -v)
    | '+' :: cs => jsNumberCore cs
    | cs => jsNumberCore cs

/-! ## Auth context (AuthContext: hashPassword, signIn, signUp) -/

/-- Deterministic execution environment for the auth flow: whether the
subtle-crypto SHA-256 digest works (`crypto.subtle` present and its `digest`
not throwing), and whether the stored-hash update issued on a legacy match
fails. -/
structure AuthEnv where
  subtle : Bool
  updateFails : Bool
deriving DecidableEq, Repr

/-- The current password hash: SHA-256 hex digest (abstracted as the
function argument `sha`) when the subtle-crypto digest works, otherwise the
fallback 32-bit string hash. -/
def hashPassword (env : AuthEnv) (sha : String → String) (p : String) : String :=
  if env.subtle then sha p else simpleHash p

/-- The legacy digest computed inline in `signIn`: an unconditional
SHA-256 hex digest via `crypto.subtle.digest`; `none` models the raised and
caught `hashError` when the subtle digest is unavailable. -/
def legacyDigest (env : AuthEnv) (sha : String → String) (p : String) : Option String :=
  if env.subtle then some (sha p) else none

/-- A row of the users table as read by `signIn` (only the fields the auth
flow consults). -/
structure UserRow where
  id : Nat
  contrasena : String
deriving DecidableEq, Repr

/-- The `signIn` flow. `row` is the result of the lookup by `gmail`
(`none` covers both a query error and no matching row, the cases rejected
by `.single()`). Returns the outcome (`Except.ok` with the in-memory user
set, or the thrown error message) together with the stored hash of the row
after the call (`none` when there was no row). -/
def signIn (env : AuthEnv) (sha : String → String) (row : Option UserRow) (p : String) :
    Except String UserRow × Option String :=
  match row with
  | none => (Except.error "Credenciales incorrectas", none)
  | some u =>
    let newHashedPassword := hashPassword env sha p
    if u.contrasena = newHashedPassword then (Except.ok u, some u.contrasena)
    else
      match legacyDigest env sha p with
      | some oldHashedPassword =>
        if u.contrasena = oldHashedPassword then
          if env.updateFails then (Except.error "Credenciales incorrectas", some u.contrasena)
          else (Except.ok u, some newHashedPassword)
        else (Except.error "Credenciales incorrectas", some u.contrasena)
      | none => (Except.error "Credenciales incorrectas", some u.contrasena)

/-- The users and wallet tables touched by `signUp`, each represented by the
list of stored ids (`billetera` holds `usuario_id`s). -/
structure SignUpDB where
  usuarios : List Nat
  billetera : List Nat
deriving DecidableEq, Repr

/-- The `signUp` flow. `newId` is the id the store assigns to the inserted
user row; the two boolean parameters say whether the user insert and the
wallet insert fail. Returns (error thrown?, final tables, `setUser`
argument if `setUser` was called). On a wallet failure the compensating
`delete().eq('id', userData.id)` is replayed on the users table. -/
def signUp (userInsertFails walletInsertFails : Bool) (db : SignUpDB) (newId : Nat) :
    Bool × SignUpDB × Option Nat :=
  if userInsertFails then (true, db, none)
  else
    let db1 : SignUpDB := { db with usuarios := db.usuarios ++ [newId] }
    if walletInsertFails then
      (true, { db1 with usuarios := db1.usuarios.filter (fun i => i != newId) }, none)
    else
      (false, { db1 with billetera := db1.billetera ++ [newId] }, some newId)

/-! ## Welcome screen (transactions list, balance fold, create/delete) -/

/-- A row of the `transacciones` table as fetched by the welcome screen,
with the joined category name (`transaccion.categorias.nombre`). -/
structure Transaccion where
  id : Nat
  usuario_id : Nat
  monto : Rat
  tipo : String
  fecha : String
  categoriaNombre : String
deriving DecidableEq, Repr

/-- The balance recomputation of `obtenerSaldoActual`: fold over all of the
user's transactions, adding the amount when `tipo === 'ingreso'` and
subtracting it otherwise. -/
def obtenerSaldoActual (transacciones : List Transaccion) : Rat :=
  transacciones.foldl
    (fun acc trans => if trans.tipo = "ingreso" then acc + trans.monto else acc - trans.monto) 0

/-- Sum of the amounts of the income transactions of a list; with
`sumEgresos` this expresses the spec's signed sum (income positive, expense
negative). -/
def sumIngresos (transacciones : List Transaccion) : Rat :=
  ((transacciones.filter (fun t => t.tipo == "ingreso")).map (fun t => t.monto)).sum

/-- Sum of the amounts of the expense transactions of a list. -/
def sumEgresos (transacciones : List Transaccion) : Rat :=
  ((transacciones.filter (fun t => t.tipo == "egreso")).map (fun t => t.monto)).sum

/-- The overdraft confirmation prompt: the promise is resolved with `true`
immediately after showing the toast, so it is a constant function of its
arguments. -/
def mostrarAdvertenciaSaldoNegativo (_monto _saldo : Rat) : Bool :=
  true

/-- Observable outcome of one `agregarTransaccion` run: whether the
overdraft prompt was presented, whether the `crear_transaccion` remote
procedure was invoked, and the user-visible error message if any. -/
structure AddTxOutcome where
  promptShown : Bool
  rpcInvoked : Bool
  errMsg : Option String
deriving DecidableEq, Repr

/-- The `agregarTransaccion` flow of the welcome screen: validate the raw
amount string and the selected category, run the overdraft confirmation for
an expense larger than the current balance, then invoke the
`crear_transaccion` remote procedure (whose failure `rpcFails` controls). -/
def agregarTransaccion (rpcFails : Bool) (monto : String) (categoriaSeleccionada : Option Nat)
    (tipoSeleccionado : String) (saldo : Rat) : AddTxOutcome :=
  if monto = "" ∨ categoriaSeleccionada = none then
    { promptShown := false, rpcInvoked := false,
      errMsg := some "Por favor ingresa el monto y selecciona una categoría" }
  else
    match jsNumber monto with
    | none =>
      { promptShown := false, rpcInvoked := false,
        errMsg := some "Por favor ingresa un monto válido" }
    | some montoNumerico =>
      if montoNumerico ≤ 0 then
        { promptShown := false, rpcInvoked := false,
          errMsg := some "Por favor ingresa un monto válido" }
      else if tipoSeleccionado = "egreso" ∧ saldo < montoNumerico then
        if mostrarAdvertenciaSaldoNegativo montoNumerico saldo then
          { promptShown := true, rpcInvoked := true,
            errMsg := if rpcFails then some "No se pudo agregar el gasto" else none }
        else { promptShown := true, rpcInvoked := false, errMsg := none }
      else
        { promptShown := false, rpcInvoked := true,
          errMsg := if rpcFails then some "No se pudo agregar el ingreso" else none }

/-- Accumulation step of the category dictionaries: add the amount to the
category's entry, creating it when absent (`categories[c] = (categories[c]
|| 0) + amount` in effect). -/
def bumpCategoria : List (String × Rat) → String → Rat → List (String × Rat)
  | [], cat, m => [(cat, m)]
  | (k, v) :: rest, cat, m =>
    if k = cat then (k, v + m) :: rest else (k, v) :: bumpCategoria rest cat m

/-- The income half of `procesarTransacciones`: group income transactions
by category name, summing amounts. -/
def procesarIngresos (transacciones : List Transaccion) : List (String × Rat) :=
  transacciones.foldl
    (fun acc t => if t.tipo = "ingreso" then bumpCategoria acc t.categoriaNombre t.monto else acc) []

/-- The expense half of `procesarTransacciones`: group the remaining
transactions by category name, summing amounts. -/
def procesarEgresos (transacciones : List Transaccion) : List (String × Rat) :=
  transacciones.foldl
    (fun acc t => if t.tipo = "ingreso" then acc else bumpCategoria acc t.categoriaNombre t.monto) []

/-- The welcome screen's local view state: the fetched transaction list,
the derived balance, and the two category breakdowns. -/
structure PantallaState where
  transacciones : List Transaccion
  saldo : Rat
  datosIngresos : List (String × Rat)
  datosEgresos : List (String × Rat)
deriving DecidableEq, Repr

/-- Model of supabase `.single()`: the row when the result set has exactly
one row, an error (`none`) otherwise. -/
def singleRow {α : Type} : List α → Option α
  | [a] => some a
  | _ => none

/-- Outcome of one `eliminarTransaccion` run. -/
inductive DeleteOutcome
  | permisoDenegado
  | rpcError
  | eliminado
deriving DecidableEq, Repr

/-- The refresh after a successful mutation (`cargarDatos` plus
`obtenerSaldoActual` plus the `procesarTransacciones` effect): re-fetch the
user's transactions and rederive balance and category data. -/
def refrescarPantalla (db : List Transaccion) (usuarioId : Nat) : PantallaState :=
  let mias := db.filter (fun t => t.usuario_id == usuarioId)
  { transacciones := mias
    saldo := obtenerSaldoActual mias
    datosIngresos := procesarIngresos mias
    datosEgresos := procesarEgresos mias }

/-- The `eliminarTransaccion` flow: ownership check by a `.single()` lookup
on (id, usuario_id); on failure reject with the permission message without
touching the remote store or the local state; otherwise invoke the
`eliminar_transaccion` remote procedure and refresh. Returns the outcome,
the local state after the run, and whether the remote delete was invoked. -/
def eliminarTransaccion (rpcFails : Bool) (db : List Transaccion) (st : PantallaState)
    (usuarioId transaccionId : Nat) : DeleteOutcome × PantallaState × Bool :=
  match singleRow (db.filter (fun t => t.id == transaccionId && t.usuario_id == usuarioId)) with
  | none => (DeleteOutcome.permisoDenegado, st, false)
  | some _ =>
    if rpcFails then (DeleteOutcome.rpcError, st, true)
    else
      (DeleteOutcome.eliminado,
        refrescarPantalla (db.filter (fun t => t.id != transaccionId)) usuarioId, true)

/-! ## Income screen (month filter, totals, amount validation) -/

/-- The two components of a JavaScript `Date` the income screen reads:
`getFullYear()` and `getMonth()` (0 to 11). Transaction date strings are
modelled by their parsed value. -/
structure JSDate where
  year : Int
  month : Nat
deriving DecidableEq, Repr

/-- A row of the income screen's `transactions` table (the fields the
aggregation logic reads). -/
structure Transaction where
  user_id : Nat
  type : String
  amount : Rat
  category : String
  date : JSDate
deriving DecidableEq, Repr

/-- The income screen's current-month filter:
`t.type === 'income' && new Date(t.date).getMonth() === new Date().getMonth()`. -/
def currentMonthIncomes (today : JSDate) (transactions : List Transaction) : List Transaction :=
  transactions.filter (fun t => t.type == "income" && t.date.month == today.month)

/-- The income screen's headline total: reduce over all transactions,
summing amounts. -/
def totalIncome (transactions : List Transaction) : Rat :=
  transactions.foldl (fun sum t => sum + t.amount) 0

/-- The income screen's per-category breakdown, accumulated over the
current-month incomes only. -/
def incomesByCategory (today : JSDate) (transactions : List Transaction) : List (String × Rat) :=
  (currentMonthIncomes today transactions).foldl
    (fun acc income => bumpCategoria acc income.category income.amount) []

/-- Amount recorded for a category in a breakdown dictionary (0 when the
category is absent). -/
def lookupRat : List (String × Rat) → String → Rat
  | [], _ => 0
  | (k, v) :: rest, c => if k = c then v else lookupRat rest c

/-- Modelled from the spec: a date "falls in the current calendar month"
when both its calendar year and its month agree with today's. This is the
spec-side notion the aggregation claim is compared against. -/
def specSameCalendarMonth (d today : JSDate) : Prop :=
  d.year = today.year ∧ d.month = today.month

/-- Model of the strip in `handleAddIncome`:
`amount.replace(/[^0-9.]/g, '')` keeps exactly digits and dots. -/
def stripAmount (s : String) : String :=
  String.mk (s.data.filter (fun c => c.isDigit || c == '.'))

/-- Result of the validation prefix of `handleAddIncome`; `rejected` means
the function returned (with the given toast message) before the remote
insert, `accepted` means it reached the insert with the parsed amount. -/
inductive IncomeValidation
  | rejected (msg : String)
  | accepted (amount : Rat)
deriving DecidableEq, Repr

/-- The validation prefix of `handleAddIncome`: empty check on the trimmed
raw string, strip-and-parse of the amount, positivity check, category
check. -/
def validateAddIncome (amount category : String) : IncomeValidation :=
  if jsTrim amount = "" then IncomeValidation.rejected "Por favor ingresa un monto"
  else
    match parseFloatJS (stripAmount amount) with
    | none => IncomeValidation.rejected "El monto debe ser un número válido mayor a 0"
    | some numericAmount =>
      if numericAmount ≤ 0 then
        IncomeValidation.rejected "El monto debe ser un número válido mayor a 0"
      else if category = "" then IncomeValidation.rejected "Por favor selecciona una categoría"
      else IncomeValidation.accepted numericAmount

/-! ## Helper lemmas -/

/-- The signed value of a transaction: its amount for an income, minus its
amount otherwise. -/
def montoFirmado (t : Transaccion) : Rat :=
  if t.tipo = "ingreso" then t.monto else -t.monto

/-- The balance fold with an arbitrary accumulator adds the signed sum of
the list. -/
theorem obtenerSaldo_foldl_acc (ts : List Transaccion) :
    ∀ acc : Rat,
      ts.foldl (fun acc t => if t.tipo = "ingreso" then acc + t.monto else acc - t.monto) acc =
        acc + (ts.map montoFirmado).sum := by
  induction ts with
  | nil => simp
  | cons t ts ih =>
    intro acc
    simp only [List.foldl_cons, List.map_cons, List.sum_cons]
    rw [ih]
    by_cases h : t.tipo = "ingreso" <;> simp [montoFirmado, h] <;> ring

/-- The balance recomputation is the signed sum of the list. -/
theorem obtenerSaldoActual_eq_sum (ts : List Transaccion) :
    obtenerSaldoActual ts = (ts.map montoFirmado).sum := by
  rw [obtenerSaldoActual, obtenerSaldo_foldl_acc]
  ring

/-- Appending one transaction applies the signed step once. -/
theorem obtenerSaldo_append_single (ts : List Transaccion) (t : Transaccion) :
    obtenerSaldoActual (ts ++ [t]) =
      if t.tipo = "ingreso" then obtenerSaldoActual ts + t.monto
      else obtenerSaldoActual ts - t.monto := by
  simp only [obtenerSaldoActual, List.foldl_append, List.foldl_cons, List.foldl_nil]

/-- When every transaction is an income or an expense, the signed sum
splits into income total minus expense total. -/
theorem saldo_signed_of_tipos (ts : List Transaccion)
    (h : ∀ t ∈ ts, t.tipo = "ingreso" ∨ t.tipo = "egreso") :
    (ts.map montoFirmado).sum = sumIngresos ts - sumEgresos ts := by
  induction ts with
  | nil => simp [sumIngresos, sumEgresos]
  | cons t ts ih =>
    have ht := h t (List.mem_cons_self t ts)
    have ihr := ih (fun x hx => h x (List.mem_cons_of_mem t hx))
    rcases ht with ht | ht <;>
      simp [sumIngresos, sumEgresos, List.filter_cons, ht, montoFirmado, ihr] <;>
      ring

/-! ## Claims -/

/-- Claim C1: for every list of a user's transactions made of incomes and
expenses, `obtenerSaldoActual`'s fold returns the signed sum of the list
(incomes add their amount, expenses subtract it), and the result is
independent of every transaction's date. -/
theorem obtenerSaldoActual_eq_signed_sum (ts : List Transaccion)
    (h : ∀ t ∈ ts, t.tipo = "ingreso" ∨ t.tipo = "egreso") :
    obtenerSaldoActual ts = sumIngresos ts - sumEgresos ts ∧
    ∀ f : Transaccion → String,
      obtenerSaldoActual (ts.map fun t => { t with fecha := f t }) = obtenerSaldoActual ts := by
  constructor
  · rw [obtenerSaldoActual_eq_sum, saldo_signed_of_tipos ts h]
  · intro f
    rw [obtenerSaldoActual_eq_sum, obtenerSaldoActual_eq_sum, List.map_map]
    congr 1

/-- Example income transaction. -/
def trIngresoEj : Transaccion :=
  { id := 1, usuario_id := 1, monto := 5, tipo := "ingreso", fecha := "2024-01-05",
    categoriaNombre := "Salario" }

/-- Example expense transaction. -/
def trEgresoEj : Transaccion :=
  { id := 2, usuario_id := 1, monto := 2, tipo := "egreso", fecha := "2025-10-01",
    categoriaNombre := "Comida" }

/-- Witness for C1 at a concrete two-transaction list. -/
theorem obtenerSaldoActual_eq_signed_sum_witness :
    obtenerSaldoActual [trIngresoEj, trEgresoEj] =
      sumIngresos [trIngresoEj, trEgresoEj] - sumEgresos [trIngresoEj, trEgresoEj] :=
  (obtenerSaldoActual_eq_signed_sum [trIngresoEj, trEgresoEj] (by decide)).1

/-- Claim C10: a transaction whose kind is neither `'ingreso'` nor
`'egreso'` is subtracted from the balance exactly like an expense, and only
transactions of kind `'ingreso'` are added. -/
theorem obtenerSaldoActual_unknown_tipo_subtracts (ts : List Transaccion) (t : Transaccion)
    (h1 : t.tipo ≠ "ingreso") (h2 : t.tipo ≠ "egreso") :
    obtenerSaldoActual (ts ++ [t]) = obtenerSaldoActual ts - t.monto ∧
    ∀ t2 : Transaccion, t2.tipo = "ingreso" →
      obtenerSaldoActual (ts ++ [t2]) = obtenerSaldoActual ts + t2.monto := by
  refine ⟨?_, ?_⟩
  · rw [obtenerSaldo_append_single, if_neg h1]
  · intro t2 h
    rw [obtenerSaldo_append_single, if_pos h]

/-- Example transaction with an unrecognized kind. -/
def trDesconocidoEj : Transaccion :=
  { id := 3, usuario_id := 1, monto := 3, tipo := "transferencia", fecha := "2025-10-02",
    categoriaNombre := "Otros" }

/-- Witness for C10 at a concrete list and unrecognized-kind transaction. -/
theorem obtenerSaldoActual_unknown_tipo_subtracts_witness :
    obtenerSaldoActual ([trIngresoEj] ++ [trDesconocidoEj]) =
      obtenerSaldoActual [trIngresoEj] - trDesconocidoEj.monto :=
  (obtenerSaldoActual_unknown_tipo_subtracts [trIngresoEj] trDesconocidoEj (by decide)
    (by decide)).1

/-- Claim C2 (divergence): whenever a stored hash matches only the legacy
SHA-256 digest of the password and not the current algorithm's digest,
`signIn` rejects with the generic invalid-credentials error and leaves the
stored hash unchanged — the legacy-upgrade path never runs, because the
mismatch forces the environment without the subtle-crypto digest, where the
inline legacy digest computation itself throws. -/
theorem signIn_legacy_only_never_upgrades (env : AuthEnv) (sha : String → String) (u : UserRow)
    (p : String) (h1 : u.contrasena = sha p) (h2 : u.contrasena ≠ hashPassword env sha p) :
    signIn env sha (some u) p = (Except.error "Credenciales incorrectas", some u.contrasena) := by
  have hsub : env.subtle = false := by
    cases hs : env.subtle
    · rfl
    · exact absurd (by rw [hashPassword, hs, if_pos rfl, ← h1]) h2
  simp [signIn, legacyDigest, hsub, h2]

/-- Example stand-in for the SHA-256 hex digest. -/
def shaEj : String → String := fun s => s ++ "#sha"

/-- Witness for C2: a concrete environment without the subtle-crypto
digest, a user whose stored hash is the legacy digest of the password, and
the rejected login. -/
theorem signIn_legacy_only_never_upgrades_witness :
    signIn ⟨false, false⟩ shaEj (some ⟨7, "pw#sha"⟩) "pw" =
      (Except.error "Credenciales incorrectas", some "pw#sha") :=
  signIn_legacy_only_never_upgrades ⟨false, false⟩ shaEj ⟨7, "pw#sha"⟩ "pw" (by rfl) (by decide)

/-- Claim C8: a login against a missing user row and a login against an
existing row whose password matches neither the current nor the legacy
stored hash raise the same generic invalid-credentials error. -/
theorem signIn_generic_rejection (env : AuthEnv) (sha : String → String) (u : UserRow)
    (p : String) (h1 : u.contrasena ≠ hashPassword env sha p) (h2 : u.contrasena ≠ sha p) :
    (signIn env sha none p).1 = Except.error "Credenciales incorrectas" ∧
    (signIn env sha (some u) p).1 = Except.error "Credenciales incorrectas" := by
  refine ⟨rfl, ?_⟩
  cases hs : env.subtle <;> simp [signIn, legacyDigest, hs, h1, h2]

/-- Witness for C8: a concrete wrong-password rejection alongside the
missing-row rejection. -/
theorem signIn_generic_rejection_witness :
    (signIn ⟨true, false⟩ shaEj none "pw").1 = Except.error "Credenciales incorrectas" ∧
    (signIn ⟨true, false⟩ shaEj (some ⟨7, "otra#sha"⟩) "pw").1 =
      Except.error "Credenciales incorrectas" :=
  signIn_generic_rejection ⟨true, false⟩ shaEj ⟨7, "otra#sha"⟩ "pw" (by decide) (by decide)

/-- Claim C9: when the subtle-crypto digest is available, `hashPassword`
computes exactly the digest the legacy branch computes, every login a
legacy match would accept is already accepted by the current-hash
comparison, and no run of `signIn` ever rewrites the stored hash. -/
theorem signIn_subtle_legacy_unreachable (env : AuthEnv) (sha : String → String) (p : String)
    (h : env.subtle = true) :
    hashPassword env sha p = sha p ∧
    legacyDigest env sha p = some (sha p) ∧
    (∀ u : UserRow, u.contrasena = sha p →
      signIn env sha (some u) p = (Except.ok u, some u.contrasena)) ∧
    (∀ row : Option UserRow, (signIn env sha row p).2 = row.map (fun u => u.contrasena)) := by
  refine ⟨by simp [hashPassword, h], by simp [legacyDigest, h], ?_, ?_⟩
  · intro u hu
    simp [signIn, hashPassword, h, hu]
  · intro row
    cases row with
    | none => rfl
    | some u =>
      by_cases hc : u.contrasena = sha p <;>
        simp [signIn, hashPassword, legacyDigest, h, hc]

/-- Witness for C9: concrete subtle-crypto environment, a matching login
accepted on the current-hash path with the stored hash untouched. -/
theorem signIn_subtle_legacy_unreachable_witness :
    signIn ⟨true, false⟩ shaEj (some ⟨7, "pw#sha"⟩) "pw" =
      (Except.ok ⟨7, "pw#sha"⟩, some "pw#sha") :=
  (signIn_subtle_legacy_unreachable ⟨true, false⟩ shaEj "pw" rfl).2.2.1 ⟨7, "pw#sha"⟩ rfl

/-- Claim C5: when the user insert succeeds, the wallet insert fails and
the id is fresh, `signUp` ends in an error with both tables exactly as
before (the compensating delete removed the just-created user) and without
ever calling `setUser`. -/
theorem signUp_wallet_failure_compensates (db : SignUpDB) (newId : Nat)
    (h : newId ∉ db.usuarios) :
    signUp false true db newId = (true, db, none) := by
  have hfilter : (db.usuarios ++ [newId]).filter (fun i => i != newId) = db.usuarios := by
    rw [List.filter_append]
    have h1 : db.usuarios.filter (fun i => i != newId) = db.usuarios :=
      List.filter_eq_self.mpr fun a ha => by
        have hne : a ≠ newId := fun he => h (he ▸ ha)
        simpa [bne_iff_ne] using hne
    have h2 : [newId].filter (fun i => i != newId) = [] := by simp
    rw [h1, h2, List.append_nil]
  simp only [signUp, Bool.false_eq_true, if_false, if_true, hfilter]

/-- Witness for C5 at a concrete database and fresh id. -/
theorem signUp_wallet_failure_compensates_witness :
    signUp false true ⟨[1, 2], [1, 2]⟩ 3 = (true, ⟨[1, 2], [1, 2]⟩, none) :=
  signUp_wallet_failure_compensates ⟨[1, 2], [1, 2]⟩ 3 (by decide)

/-- Claim C6: when no transaction row pairs the requested id with the
calling user's id, `eliminarTransaccion` rejects with the permission
outcome, the remote delete procedure is never invoked, and the local
screen state (transaction list, balance, category data) is returned
unchanged. -/
theorem eliminarTransaccion_ownership_rejected (rpcFails : Bool) (db : List Transaccion)
    (st : PantallaState) (usuarioId transaccionId : Nat)
    (h : ∀ t ∈ db, t.id = transaccionId → t.usuario_id ≠ usuarioId) :
    eliminarTransaccion rpcFails db st usuarioId transaccionId =
      (DeleteOutcome.permisoDenegado, st, false) := by
  have hfilter : db.filter (fun t => t.id == transaccionId && t.usuario_id == usuarioId) = [] := by
    rw [List.filter_eq_nil_iff]
    intro t ht
    simp only [Bool.and_eq_true, beq_iff_eq, not_and]
    exact h t ht
  rw [eliminarTransaccion, hfilter]
  rfl

/-- Witness for C6: deleting another user's transaction is rejected with
the state untouched. -/
theorem eliminarTransaccion_ownership_rejected_witness :
    eliminarTransaccion false [trIngresoEj] ⟨[trIngresoEj], 5, [], []⟩ 9 1 =
      (DeleteOutcome.permisoDenegado, ⟨[trIngresoEj], 5, [], []⟩, false) :=
  eliminarTransaccion_ownership_rejected false [trIngresoEj] ⟨[trIngresoEj], 5, [], []⟩ 9 1
    (by decide)

/-- Claim C7: for a valid positive expense amount, when the amount exceeds
the current derived balance the confirmation prompt is shown, resolves
affirmatively with no awaited user decision, and the remote create
procedure is then invoked; when the amount does not exceed the balance no
prompt is shown and the create is invoked directly. -/
theorem agregarTransaccion_overdraft_prompt (rpcFails : Bool) (monto : String) (cat : Nat)
    (saldo m : Rat) (hm : jsNumber monto = some m) (hpos : 0 < m) :
    (saldo < m →
      (agregarTransaccion rpcFails monto (some cat) "egreso" saldo).promptShown = true ∧
      (agregarTransaccion rpcFails monto (some cat) "egreso" saldo).rpcInvoked = true ∧
      mostrarAdvertenciaSaldoNegativo m saldo = true) ∧
    (¬ saldo < m →
      (agregarTransaccion rpcFails monto (some cat) "egreso" saldo).promptShown = false ∧
      (agregarTransaccion rpcFails monto (some cat) "egreso" saldo).rpcInvoked = true) := by
  have hne1 : monto ≠ "" := by
    intro he
    rw [he] at hm
    have h0 : (0 : Rat) = m := by simpa [jsNumber, jsTrim] using hm
    exact lt_irrefl m (h0 ▸ hpos)
  have hne : ¬ (monto = "" ∨ (some cat : Option Nat) = none) := by
    rintro (he | he)
    · exact hne1 he
    · exact Option.some_ne_none cat he
  constructor <;> intro hs <;>
    simp [agregarTransaccion, hne, hne1, hm, not_le.mpr hpos, hs,
      mostrarAdvertenciaSaldoNegativo]

/-- Witness for C7: the expense `"50"` against balance 20 prompts and
creates; against balance 100 it creates without a prompt. -/
theorem agregarTransaccion_overdraft_prompt_witness :
    ((agregarTransaccion false "50" (some 1) "egreso" 20).promptShown = true ∧
      (agregarTransaccion false "50" (some 1) "egreso" 20).rpcInvoked = true ∧
      mostrarAdvertenciaSaldoNegativo 50 20 = true) ∧
    ((agregarTransaccion false "50" (some 1) "egreso" 100).promptShown = false ∧
      (agregarTransaccion false "50" (some 1) "egreso" 100).rpcInvoked = true) :=
  ⟨(agregarTransaccion_overdraft_prompt false "50" 1 20 50 (by decide) (by norm_num)).1
      (by norm_num),
    (agregarTransaccion_overdraft_prompt false "50" 1 100 50 (by decide) (by norm_num)).2
      (by norm_num)⟩

/-- Claim C3 (counterexample): the input `"S/. 1,250.50abc"` does not parse
to 1250.50 — the strip keeps the dot of `"S/."`, producing `".1250.50"`,
and `parseFloat` stops at the second dot, so the validation accepts the
amount 0.125. -/
theorem validateAddIncome_strip_counterexample :
    validateAddIncome "S/. 1,250.50abc" "Salario" = IncomeValidation.accepted (1 / 8) ∧
    (1 / 8 : Rat) ≠ 2501 / 2 := by
  constructor
  · have hp : parseFloatJS (stripAmount "S/. 1,250.50abc") = some (1 / 8) := by
      simp +decide [parseFloatJS, stripAmount, decValue, digitsToNat]
      norm_num
    rw [validateAddIncome, if_neg (by decide : ¬ jsTrim "S/. 1,250.50abc" = ""), hp]
    simp only [if_neg (by norm_num : ¬ (1 / 8 : Rat) ≤ 0),
      if_neg (by decide : ¬ ("Salario" : String) = "")]
  · norm_num

/-- Claim C3 (amended): the input `"S/. 1,250.50abc"` strips to
`".1250.50"` and is accepted with the parsed amount 0.125, and every input
whose stripped form parses to `NaN` or to a non-positive value is rejected
with a validation message before any network call. -/
theorem validateAddIncome_parse_and_reject :
    validateAddIncome "S/. 1,250.50abc" "Salario" = IncomeValidation.accepted (1 / 8) ∧
    ∀ s c : String,
      (parseFloatJS (stripAmount s) = none ∨
        ∃ v, parseFloatJS (stripAmount s) = some v ∧ v ≤ 0) →
      ∃ msg, validateAddIncome s c = IncomeValidation.rejected msg := by
  constructor
  · have hp : parseFloatJS (stripAmount "S/. 1,250.50abc") = some (1 / 8) := by
      simp +decide [parseFloatJS, stripAmount, decValue, digitsToNat]
      norm_num
    rw [validateAddIncome, if_neg (by decide : ¬ jsTrim "S/. 1,250.50abc" = ""), hp]
    simp only [if_neg (by norm_num : ¬ (1 / 8 : Rat) ≤ 0),
      if_neg (by decide : ¬ ("Salario" : String) = "")]
  · intro s c hbad
    by_cases ht : jsTrim s = ""
    · exact ⟨_, by rw [validateAddIncome, if_pos ht]⟩
    · cases hp : parseFloatJS (stripAmount s) with
      | none => exact ⟨_, by rw [validateAddIncome, if_neg ht, hp]⟩
      | some v =>
        have hv : v ≤ 0 := by
          rcases hbad with hb | ⟨v', hv', hle⟩
          · rw [hp] at hb
            exact absurd hb (by simp)
          · rw [hp] at hv'
            exact (Option.some.inj hv') ▸ hle
        exact ⟨"El monto debe ser un número válido mayor a 0", by
          rw [validateAddIncome, if_neg ht, hp]
          simp only [if_pos hv]⟩

/-- Witness for C3: the input `"abc"` strips to the empty string, parses
to `NaN`, and is rejected. -/
theorem validateAddIncome_parse_and_reject_witness :
    ∃ msg, validateAddIncome "abc" "Salario" = IncomeValidation.rejected msg :=
  validateAddIncome_parse_and_reject.2 "abc" "Salario" (Or.inl (by decide))

/-- Looking a category up after a bump adds the bumped amount to that
category's entry and leaves the others unchanged. -/
theorem lookupRat_bumpCategoria (l : List (String × Rat)) (cat : String) (m : Rat)
    (c : String) :
    lookupRat (bumpCategoria l cat m) c = lookupRat l c + (if cat = c then m else 0) := by
  induction l with
  | nil =>
    by_cases h : cat = c <;> simp [bumpCategoria, lookupRat, h]
  | cons kv rest ih =>
    obtain ⟨k, v⟩ := kv
    by_cases hk : k = cat <;> by_cases hc : k = c
    · subst hk
      subst hc
      simp [bumpCategoria, lookupRat]
    · subst hk
      simp [bumpCategoria, lookupRat, hc]
    · subst hc
      simp [bumpCategoria, lookupRat, hk, ih]
      intro h
      exact absurd h.symm hk
    · simp [bumpCategoria, lookupRat, hk, hc, ih]

/-- The category dictionary fold computes, for each category, the sum of
the amounts of the folded transactions in that category. -/
theorem lookupRat_fold_bump (l : List Transaction) (c : String) :
    ∀ acc : List (String × Rat),
      lookupRat (l.foldl (fun a t => bumpCategoria a t.category t.amount) acc) c =
        lookupRat acc c + ((l.filter (fun t => t.category == c)).map (fun t => t.amount)).sum := by
  induction l with
  | nil => simp
  | cons t l ih =>
    intro acc
    simp only [List.foldl_cons]
    rw [ih, lookupRat_bumpCategoria]
    by_cases h : t.category = c <;> simp [List.filter_cons, h] <;> ring

/-- The income total fold with an arbitrary accumulator adds the amount
sum. -/
theorem totalIncome_foldl_acc (l : List Transaction) :
    ∀ acc : Rat, l.foldl (fun sum t => sum + t.amount) acc =
      acc + (l.map (fun t => t.amount)).sum := by
  induction l with
  | nil => simp
  | cons t l ih =>
    intro acc
    simp only [List.foldl_cons, List.map_cons, List.sum_cons]
    rw [ih]
    ring

/-- Example current date for the month-filter counterexample. -/
def hoyEj : JSDate := ⟨2025, 9⟩

/-- Example income transaction dated the same month of the previous
year. -/
def txnViejoEj : Transaction :=
  { user_id := 1, type := "income", amount := 10, category := "Salario", date := ⟨2024, 9⟩ }

/-- Claim C4 (counterexample): an income dated October 2024 passes the
current-month filter for October 2025 and is counted in the category
aggregation, although it does not fall in the current calendar month —
the filter compares `getMonth()` only, never the year. -/
theorem incomesByCategory_prior_year_counterexample :
    txnViejoEj ∈ currentMonthIncomes hoyEj [txnViejoEj] ∧
    ¬ specSameCalendarMonth txnViejoEj.date hoyEj ∧
    lookupRat (incomesByCategory hoyEj [txnViejoEj]) "Salario" = 10 := by
  refine ⟨by decide, fun h => absurd h.1 (by decide), ?_⟩
  rfl

/-- Claim C4 (amended): the category aggregation sums exactly the income
transactions whose date's month-of-year equals the current month-of-year
(the year is not compared), while the displayed total sums every
transaction regardless of its date. -/
theorem incomesByCategory_month_only_and_total (today : JSDate) (ts : List Transaction)
    (c : String) :
    lookupRat (incomesByCategory today ts) c =
      (((ts.filter (fun t => t.type == "income" && t.date.month == today.month)).filter
        (fun t => t.category == c)).map (fun t => t.amount)).sum ∧
    totalIncome ts = (ts.map (fun t => t.amount)).sum ∧
    ∀ f : Transaction → JSDate,
      totalIncome (ts.map fun t => { t with date := f t }) = totalIncome ts := by
  refine ⟨?_, ?_, ?_⟩
  · rw [incomesByCategory, currentMonthIncomes, lookupRat_fold_bump]
    simp [lookupRat]
  · rw [totalIncome, totalIncome_foldl_acc]
    ring
  · intro f
    rw [totalIncome, totalIncome, totalIncome_foldl_acc, totalIncome_foldl_acc, List.map_map]
    congr 1
